import Mathlib

/-!
Shallow embedding of the geometry / interaction core of `firework2.py`
(Firework Rack Designer). All world-coordinate arithmetic of the source is
floating point; here it is modelled exactly over `ℚ`. Rotation angles are
restricted by the application to the `ROTATION_DEGREES = [0, 90, 180, 270]`
cycle, for which sine and cosine are exact rationals.
-/

namespace Fireworks

/-! Constants from `FireworkDesigner.__init__` (source lines 604-685).
The spacing constants carry the source names minus their `_RATIO` suffix. -/

/-- Source constant DEFAULT_TUBE_SPACING_RATIO = 0.2. -/
def DEFAULT_TUBE_SPACING_RAT : ℚ := 1/5

/-- Source constant DEFAULT_FAN_PADDING_RATIO = 0.2. -/
def DEFAULT_FAN_PADDING_RAT : ℚ := 1/5

/-- Source constant DEFAULT_INTER_FAN_SPACING_RATIO = 0.5. -/
def DEFAULT_INTER_FAN_SPACING_RAT : ℚ := 1/2

/-- Source constant RACK_OUTER_PADDING = 5 (world units). -/
def RACK_OUTER_PADDING : ℚ := 5

/-- Source constant MIN_ZOOM = 0.1. -/
def MIN_ZOOM : ℚ := 1/10

/-- Source constant MAX_ZOOM = 5.0. -/
def MAX_ZOOM : ℚ := 5

/-- Source constant ZOOM_STEP = 1.2. -/
def ZOOM_STEP : ℚ := 6/5

/-- Source constant MAX_UNDO_STEPS = 50. -/
def MAX_UNDO_STEPS : Nat := 50

/-- Source constant DEFAULT_CRATE_FUSE_INCHES = 70.0. -/
def DEFAULT_CRATE_FUSE_INCHES : ℚ := 70

/-- Source constant FAN_CHAIN_INTER_TUBE_ALLOWANCE_INCHES = 3.0. -/
def FAN_CHAIN_INTER_TUBE_ALLOWANCE_INCHES : ℚ := 3

/-- Source constant FAN_CHAIN_INTER_SEGMENT_ALLOWANCE_INCHES = 0.0. -/
def FAN_CHAIN_INTER_SEGMENT_ALLOWANCE_INCHES : ℚ := 0

/-- Source constant FAN_CHAIN_LEAD_INCHES = 3.0. -/
def FAN_CHAIN_LEAD_INCHES : ℚ := 3

/-- Source constant FAN_CHAIN_TAIL_INCHES = 3.0. -/
def FAN_CHAIN_TAIL_INCHES : ℚ := 3

/-- Source constant FUSE_LENGTH_SCALE_FACTOR = 0.9. -/
def FUSE_LENGTH_SCALE_FACTOR : ℚ := 9/10

/-! Rotation primitive (`_rotate_point`, source lines 2342-2345).
`math.cos`/`math.sin` of the app's quarter-turn angles, taken exactly. -/

/-- Cosine in degrees, exact at the quarter-turn angles 0/90/180/270 that
the application's rotation cycle produces. -/
def cosDeg (a : Int) : ℚ :=
  match a % 360 with
  | 0 => 1
  | 90 => 0
  | 180 => -1
  | 270 => 0
  | _ => 0

/-- Sine in degrees, exact at the quarter-turn angles 0/90/180/270 that
the application's rotation cycle produces. -/
def sinDeg (a : Int) : ℚ :=
  match a % 360 with
  | 0 => 0
  | 90 => 1
  | 180 => 0
  | 270 => -1
  | _ => 0

/-- Mirrors `_rotate_point(x, y, angle_deg, cx, cy)`: rotate `(x,y)` about the
center `(cx,cy)` by `angle_deg` degrees. -/
def rotate_point (x y : ℚ) (angle_deg : Int) (cx cy : ℚ) : ℚ × ℚ :=
  let s := sinDeg angle_deg
  let c := cosDeg angle_deg
  ((x - cx) * c - (y - cy) * s + cx, (x - cx) * s + (y - cy) * c + cy)

/-! Data model (spec section 3 / the `rack_config` dicts of the source). -/

/-- Rack archetype: the `rack_config['type']` string, a closed two-variant tag. -/
inductive RackType
  | Crate
  | Fan
deriving DecidableEq

/-- One entry of `rack_config['tubes']` (a TubeState). -/
structure Tube where
  color : String
  ftype : String
  angle : ℚ
  liftTime : ℚ
  cue : String
deriving DecidableEq

/-- The rack_config dictionary fields the core reads. -/
structure RackConfig where
  id : String
  name : String
  type : RackType
  x_tubes : Nat
  y_tubes : Nat
  pos_x : ℚ
  pos_y : ℚ
  tube_diameter : ℚ
  rotation_angle : Int
  tubes : List Tube
deriving DecidableEq

/-- One element of the `tube_center_points_info_world` list returned by
`_get_rack_dimensions_and_points`: `(idx, world cx, world cy, effective dia)`. -/
structure TubePoint where
  idx : Nat
  cx : ℚ
  cy : ℚ
  dia : ℚ
deriving DecidableEq

/-! Geometry kernel (`_get_rack_dimensions_and_points`, source lines 2347-2459),
decomposed into the named intermediate quantities of the source. -/

/-- Crate/fan intra-column tube spacing: `spacing_world` (line 2371/2380/2426). -/
def rackSpacing (rc : RackConfig) : ℚ := DEFAULT_TUBE_SPACING_RAT * rc.tube_diameter

/-- Fan segment padding: `fan_visual_padding_world` (line 2375). -/
def fanPad (rc : RackConfig) : ℚ := DEFAULT_FAN_PADDING_RAT * rc.tube_diameter

/-- Fan segment width: `fan_rect_width_per_segment_world` (line 2376). -/
def fanSegWidth (rc : RackConfig) : ℚ := rc.tube_diameter + 2 * fanPad rc

/-- Inter-fan gap: `spacing_x_between_fans_world` (line 2377). -/
def fanGap (rc : RackConfig) : ℚ := DEFAULT_INTER_FAN_SPACING_RAT * rc.tube_diameter

/-- `tube_group_width_world` (lines 2372 and 2378). Python's `max(0, n-1)`
is Nat truncated subtraction here. -/
def tubeGroupWidth (rc : RackConfig) : ℚ :=
  match rc.type with
  | RackType.Crate => (rc.x_tubes : ℚ) * rc.tube_diameter + ((rc.x_tubes - 1 : Nat) : ℚ) * rackSpacing rc
  | RackType.Fan => (rc.x_tubes : ℚ) * fanSegWidth rc + ((rc.x_tubes - 1 : Nat) : ℚ) * fanGap rc

/-- `tube_group_height_world` (lines 2373 and 2381-2382). -/
def tubeGroupHeight (rc : RackConfig) : ℚ :=
  match rc.type with
  | RackType.Crate => (rc.y_tubes : ℚ) * rc.tube_diameter + ((rc.y_tubes - 1 : Nat) : ℚ) * rackSpacing rc
  | RackType.Fan =>
      ((rc.y_tubes : ℚ) * rc.tube_diameter + ((rc.y_tubes - 1 : Nat) : ℚ) * rackSpacing rc) + 2 * fanPad rc

/-- `unrotated_rack_width_world` (line 2385). -/
def unrotatedWidth (rc : RackConfig) : ℚ := tubeGroupWidth rc + 2 * RACK_OUTER_PADDING

/-- `unrotated_rack_height_world` (line 2386). -/
def unrotatedHeight (rc : RackConfig) : ℚ := tubeGroupHeight rc + 2 * RACK_OUTER_PADDING

/-- Rotate a local point about the unrotated rectangle's own center and
translate by `rackPos - localCenter` into world space (lines 2397-2405,
identically applied to tube centers at lines 2432-2434 and 2451-2453). -/
def placePoint (rc : RackConfig) (p : ℚ × ℚ) : ℚ × ℚ :=
  let cx := unrotatedWidth rc / 2
  let cy := unrotatedHeight rc / 2
  let pr := rotate_point p.1 p.2 rc.rotation_angle cx cy
  (rc.pos_x - cx + pr.1, rc.pos_y - cy + pr.2)

/-- Unrotated local center of the crate tube in column `c`, row `r`
(source lines 2429-2430). -/
def crateCellCenter (rc : RackConfig) (c r : Nat) : ℚ × ℚ :=
  (RACK_OUTER_PADDING + (c : ℚ) * (rc.tube_diameter + rackSpacing rc) + rc.tube_diameter / 2,
   RACK_OUTER_PADDING + (r : ℚ) * (rc.tube_diameter + rackSpacing rc) + rc.tube_diameter / 2)

/-- Unrotated local center of the fan tube in segment `f`, position `t`
inside the segment (source lines 2444-2449). -/
def fanCellCenter (rc : RackConfig) (f t : Nat) : ℚ × ℚ :=
  (RACK_OUTER_PADDING + (f : ℚ) * (fanSegWidth rc + fanGap rc) + fanPad rc + rc.tube_diameter / 2,
   RACK_OUTER_PADDING + fanPad rc + (t : ℚ) * (rc.tube_diameter + rackSpacing rc) + rc.tube_diameter / 2)

/-- `effective_tube_diameter_world = max(tube_diameter_world, 10)` (line 2422). -/
def effectiveTubeDiameter (rc : RackConfig) : ℚ := max rc.tube_diameter 10

/-- The rotated outline corner points in absolute world coordinates
(lines 2392-2405). -/
def rackOutline (rc : RackConfig) : List (ℚ × ℚ) :=
  [((0 : ℚ), (0 : ℚ)), (unrotatedWidth rc, 0), (unrotatedWidth rc, unrotatedHeight rc),
   (0, unrotatedHeight rc)].map (placePoint rc)

/-- The `tube_center_points_info_world` list (lines 2420-2455). The nested
loops run the row (Crate) resp. fan-segment (Fan) index outermost and append
with a running counter, so the counter value equals `r * cols + c` for Crate
and `f * rows + t` for Fan. -/
def rackTubePoints (rc : RackConfig) : List TubePoint :=
  match rc.type with
  | RackType.Crate =>
      (List.range rc.y_tubes).flatMap (fun r =>
        (List.range rc.x_tubes).map (fun c =>
          let p := placePoint rc (crateCellCenter rc c r)
          TubePoint.mk (r * rc.x_tubes + c) p.1 p.2 (effectiveTubeDiameter rc)))
  | RackType.Fan =>
      (List.range rc.x_tubes).flatMap (fun f =>
        (List.range rc.y_tubes).map (fun t =>
          let p := placePoint rc (fanCellCenter rc f t)
          TubePoint.mk (f * rc.y_tubes + t) p.1 p.2 (effectiveTubeDiameter rc)))

/-- Python `min` over a nonempty list (used over the four outline points,
lines 2409-2412). -/
def listMin : List ℚ → ℚ
  | [] => 0
  | x :: xs => xs.foldl min x

/-- Python `max` over a nonempty list (used over the four outline points,
lines 2409-2412). -/
def listMax : List ℚ → ℚ
  | [] => 0
  | x :: xs => xs.foldl max x

/-- The full return value of `_get_rack_dimensions_and_points`. -/
structure RackGeometry where
  tubePoints : List TubePoint
  outline : List (ℚ × ℚ)
  unrotated_width : ℚ
  unrotated_height : ℚ
  bbox_width : ℚ
  bbox_height : ℚ
deriving DecidableEq

/-- Mirrors `_get_rack_dimensions_and_points(rack_config)` (lines 2347-2459):
tube centers, rotated outline, unrotated dimensions and the axis-aligned
bounding box of the rotated outline, all in world coordinates. -/
def get_rack_dimensions_and_points (rc : RackConfig) : RackGeometry :=
  let outline := rackOutline rc
  { tubePoints := rackTubePoints rc
    outline := outline
    unrotated_width := unrotatedWidth rc
    unrotated_height := unrotatedHeight rc
    bbox_width := listMax (outline.map Prod.fst) - listMin (outline.map Prod.fst)
    bbox_height := listMax (outline.map Prod.snd) - listMin (outline.map Prod.snd) }

/-- World-space center of the tube with a given index, looked up in the
kernel's tube list. -/
def tubeCenter (rc : RackConfig) (i : Nat) : Option (ℚ × ℚ) :=
  ((get_rack_dimensions_and_points rc).tubePoints.find? (fun t => t.idx == i)).map
    (fun t => (t.cx, t.cy))

/-- The per-rack scan of `_get_tube_at_canvas_coords` (lines 1246-1254) in
world coordinates: the first tube whose center lies within half the reported
effective diameter of the query point (the same squared-distance test is used
by the shift-click recolor gesture at line 2212). -/
def tube_hit_test (rc : RackConfig) (wx wy : ℚ) : Option Nat :=
  ((get_rack_dimensions_and_points rc).tubePoints.find? (fun tp =>
    decide ((wx - tp.cx) ^ 2 + (wy - tp.cy) ^ 2 ≤ (tp.dia / 2) ^ 2))).map TubePoint.idx

/-- A rack config with its rotation field replaced, as the rotation command
produces (`rack_config['rotation_angle'] = ...`). -/
def withRot (rc : RackConfig) (a : Int) : RackConfig := { rc with rotation_angle := a }

/-- The kernel entry the code produces for flat index `i`: Crate racks
decompose `i` row-major as (row = i / cols, col = i % cols), Fan racks
segment-major as (segment = i / rows, slot = i % rows). -/
def expectedTubePoint (rc : RackConfig) (i : Nat) : TubePoint :=
  match rc.type with
  | RackType.Crate =>
      let p := placePoint rc (crateCellCenter rc (i % rc.x_tubes) (i / rc.x_tubes))
      TubePoint.mk i p.1 p.2 (effectiveTubeDiameter rc)
  | RackType.Fan =>
      let p := placePoint rc (fanCellCenter rc (i / rc.y_tubes) (i % rc.y_tubes))
      TubePoint.mk i p.1 p.2 (effectiveTubeDiameter rc)

/-! View transform (`world_to_canvas` / `canvas_to_world` / `on_mouse_wheel`,
source lines 1060-1090). -/

/-- The per-canvas view parameters: zoom factor and pan offset. -/
structure ViewState where
  zoom_level : ℚ
  pan_offset_x : ℚ
  pan_offset_y : ℚ
deriving DecidableEq

/-- Mirrors `world_to_canvas(world_x, world_y)` (lines 1060-1063). -/
def world_to_canvas (v : ViewState) (p : ℚ × ℚ) : ℚ × ℚ :=
  ((p.1 - v.pan_offset_x) * v.zoom_level, (p.2 - v.pan_offset_y) * v.zoom_level)

/-- Mirrors `canvas_to_world(canvas_x, canvas_y)` (lines 1065-1068). -/
def canvas_to_world (v : ViewState) (p : ℚ × ℚ) : ℚ × ℚ :=
  (p.1 / v.zoom_level + v.pan_offset_x, p.2 / v.zoom_level + v.pan_offset_y)

/-- The zoom clamp of line 1082: `max(MIN_ZOOM, min(MAX_ZOOM, z))`. -/
def clampZoom (z : ℚ) : ℚ := max MIN_ZOOM (min MAX_ZOOM z)

/-- Mirrors the state change of `on_mouse_wheel` (lines 1070-1090): capture the
world point under the cursor, apply the multiplicative zoom step, clamp, then
shift the pan by `worldBefore - worldAfter`. -/
def on_mouse_wheel (v : ViewState) (zoomIn : Bool) (ex ey : ℚ) : ViewState :=
  let wb := canvas_to_world v (ex, ey)
  let z := clampZoom (if zoomIn then v.zoom_level * ZOOM_STEP else v.zoom_level / ZOOM_STEP)
  let v1 : ViewState := { v with zoom_level := z }
  let wa := canvas_to_world v1 (ex, ey)
  { v1 with
    pan_offset_x := v1.pan_offset_x + (wb.1 - wa.1),
    pan_offset_y := v1.pan_offset_y + (wb.2 - wa.2) }

/-! Scene model and history manager (source lines 2286-2327). -/

/-- One entry of `flow_lines_on_canvas`. -/
structure FlowLine where
  id : String
  x1 : ℚ
  y1 : ℚ
  x2 : ℚ
  y2 : ℚ
  color : String
  width : ℚ
  label : String
deriving DecidableEq

/-- One entry of `tube_connections` (lines 1272-1273). -/
structure TubeConnection where
  id : String
  source_rack_id : String
  source_tube_idx : Nat
  target_rack_id : String
  target_tube_idx : Nat
  color : String
deriving DecidableEq

/-- The `canvas_view` sub-record of a history entry (line 2290). -/
structure CanvasView where
  zoom : ℚ
  pan_x : ℚ
  pan_y : ℚ
deriving DecidableEq

/-- The data captured by `_capture_current_state` (lines 2286-2290): racks,
flow lines, tube connections, selection, and the view state, deep-copied. -/
structure SceneState where
  racks : List RackConfig
  flow_lines : List FlowLine
  tube_connections : List TubeConnection
  selected_rack_ids : List String
  selected_flow_line_id : Option String
  canvas_view : CanvasView
deriving DecidableEq

/-- The application state relevant to the history manager: the live scene
plus the undo and redo stacks. Stack head = most recent entry, matching the
end of the python lists; `_restore_state_from_history` additionally resets
the in-progress gesture fields, which are not part of the captured scene. -/
structure AppState where
  scene : SceneState
  undo_stack : List SceneState
  redo_stack : List SceneState
deriving DecidableEq

/-- `_push_to_undo_stack` (lines 2307-2310): push, evict the oldest entry
beyond MAX_UNDO_STEPS, clear the redo stack. -/
def push_to_undo_stack (app : AppState) (s : SceneState) : AppState :=
  { app with undo_stack := (s :: app.undo_stack).take MAX_UNDO_STEPS, redo_stack := [] }

/-- `_record_state_for_undo` (line 2312): capture the live state and push it. -/
def record_state_for_undo (app : AppState) : AppState :=
  push_to_undo_stack app app.scene

/-- `undo_action` (lines 2314-2317): no-op on an empty stack, otherwise push
the live state onto the redo stack and restore the most recent undo entry. -/
def undo_action (app : AppState) : AppState :=
  match app.undo_stack with
  | [] => app
  | top :: rest =>
      { scene := top, undo_stack := rest, redo_stack := app.scene :: app.redo_stack }

/-- `redo_action` (lines 2319-2322): the mirror of undo. The push onto the
undo stack here is a plain append: no eviction and no redo clearing. -/
def redo_action (app : AppState) : AppState :=
  match app.redo_stack with
  | [] => app
  | top :: rest =>
      { scene := top, undo_stack := app.scene :: app.undo_stack, redo_stack := rest }

/-- The rack branch of `delete_selected_item` after confirmation (lines
2239-2243): remove the selected racks, clear the selection, and prune every
tube connection whose source or target rack id is in the deleted set. -/
def delete_selected_racks (s : SceneState) : SceneState :=
  { s with
    racks := s.racks.filter (fun r => !(s.selected_rack_ids.contains r.id)),
    selected_rack_ids := [],
    tube_connections := s.tube_connections.filter (fun c =>
      !(s.selected_rack_ids.contains c.source_rack_id) &&
      !(s.selected_rack_ids.contains c.target_rack_id)) }

/-! Tube color cycling (`on_canvas_shift_click`, source lines 2200-2222). -/

/-- `FUSE_COLOR_CHOICES = list(FUSE_COLORS_MAP.keys())` (line 618). -/
def FUSE_COLOR_CHOICES : List String := ["White", "Yellow", "Pink", "Blue", "Orange", "Green"]

/-- `FUSE_COLORS_MAP` (lines 610-617) as a name-to-color-value function. -/
def fuseColorsMap (n : String) : String :=
  if n = "White" then "white"
  else if n = "Yellow" then "yellow"
  else if n = "Pink" then "pink"
  else if n = "Blue" then "lightblue"
  else if n = "Orange" then "orange"
  else if n = "Green" then "lightgreen"
  else ""

/-- Line 2215: the first color name whose map value equals the tube's current
color value, defaulting to the first choice. -/
def colorNameOfValue (v : String) : String :=
  (FUSE_COLOR_CHOICES.find? (fun n => fuseColorsMap n == v)).getD "White"

/-- Lines 2215-2218: advance a tube color value to the next palette entry,
wrapping around. -/
def cycleColorValue (v : String) : String :=
  let name := colorNameOfValue v
  let idx := FUSE_COLOR_CHOICES.indexOf name
  fuseColorsMap (FUSE_COLOR_CHOICES.getD ((idx + 1) % FUSE_COLOR_CHOICES.length) "White")

/-- The mutating core of `on_canvas_shift_click` (lines 2211-2221) for a hit
on tube `i` of the single selected rack: the tube's color is advanced in
place FIRST, and only then is `_record_state_for_undo` called (line 2219),
so the pushed history entry captures the post-mutation scene. -/
def shift_click_recolor (app : AppState) (i : Nat) : AppState :=
  match app.scene.selected_rack_ids with
  | [rid] =>
      match app.scene.racks.find? (fun r => r.id == rid) with
      | some rack =>
          if i < rack.tubes.length then
            let racks' := app.scene.racks.map (fun r =>
              if r.id == rid then
                { r with tubes := r.tubes.mapIdx (fun j t =>
                    if j == i then { t with color := cycleColorValue t.color } else t) }
              else r)
            record_state_for_undo { app with scene := { app.scene with racks := racks' } }
          else app
      | none => app
  | _ => app

/-! Derived metrics (`_update_canvas_summary_info`, source lines 1453-1481). -/

/-- `num_tubes_in_rack = x_tubes * y_tubes` (line 1456). -/
def rackNumTubes (rc : RackConfig) : Nat := rc.x_tubes * rc.y_tubes

/-- `current_rack_total_fuse_length_inches` (lines 1459-1470): the Crate
closed form scales the base fuse length by tubeCount / 25 (base_crate_tubes
= 5*5); the Fan closed form is lead + intra-segment allowances +
inter-segment allowance + tail; initialized 0.0 otherwise. -/
def rack_total_fuse_inches (rc : RackConfig) : ℚ :=
  match rc.type with
  | RackType.Crate => DEFAULT_CRATE_FUSE_INCHES * ((rackNumTubes rc : ℚ) / 25)
  | RackType.Fan =>
      if 0 < rc.x_tubes ∧ 0 < rc.y_tubes then
        FAN_CHAIN_LEAD_INCHES
          + (rc.x_tubes : ℚ) * ((rc.y_tubes - 1 : Nat) : ℚ) * FAN_CHAIN_INTER_TUBE_ALLOWANCE_INCHES
          + ((rc.x_tubes - 1 : Nat) : ℚ) * FAN_CHAIN_INTER_SEGMENT_ALLOWANCE_INCHES
          + FAN_CHAIN_TAIL_INCHES
      else 0

/-- The defaultdict update `fuse_lengths_by_color_value[color] += per` for
one tube (line 1474). -/
def add_tube_fuse (per : ℚ) (m : String → ℚ) (t : Tube) : String → ℚ :=
  fun c => if t.color = c then m c + per else m c

/-- Processing of one rack inside the loop of `_update_canvas_summary_info`
(lines 1455-1474): skip empty racks, compute the closed-form total, scale by
FUSE_LENGTH_SCALE_FACTOR, divide by the tube count and add the share to each
tube's color. -/
def add_rack_fuse (m : String → ℚ) (rc : RackConfig) : String → ℚ :=
  if rackNumTubes rc = 0 then m
  else if 0 < rack_total_fuse_inches rc ∧ 0 < rackNumTubes rc then
    rc.tubes.foldl
      (add_tube_fuse (rack_total_fuse_inches rc * FUSE_LENGTH_SCALE_FACTOR / (rackNumTubes rc : ℚ))) m
  else m

/-- The per-color running totals `fuse_lengths_by_color_value` after the
rack loop of `_update_canvas_summary_info`. -/
def fuse_lengths_by_color (racks : List RackConfig) : String → ℚ :=
  racks.foldl add_rack_fuse (fun _ => 0)

/-- Closed-form contribution of one rack to one color's running total:
the number of its tubes with that color times the scaled even share. -/
def rack_fuse_contribution (c : String) (rc : RackConfig) : ℚ :=
  if rackNumTubes rc = 0 then 0
  else if 0 < rack_total_fuse_inches rc ∧ 0 < rackNumTubes rc then
    ((rc.tubes.countP (fun t => t.color == c)) : ℚ) *
      (rack_total_fuse_inches rc * FUSE_LENGTH_SCALE_FACTOR / (rackNumTubes rc : ℚ))
  else 0

/-! Concrete fixtures used by the counterexamples and witnesses. -/

/-- A default TubeState as synthesized for new racks. -/
def defaultTube (c : String) : Tube :=
  { color := c, ftype := "Standard", angle := 0, liftTime := 0, cue := "" }

/-- The Crate rack of the C1 scenario: cols=3, rows=2, tubeDiameter=20,
pos=(50,50), rotation 0. -/
def crateTestRack : RackConfig :=
  { id := "r1", name := "Crate A", type := RackType.Crate, x_tubes := 3, y_tubes := 2,
    pos_x := 50, pos_y := 50, tube_diameter := 20, rotation_angle := 0,
    tubes := List.replicate 6 (defaultTube "pink") }

/-- The Fan rack used to refute the row-major half of claim C2:
cols = 2 segments, rows = 2 tubes per segment, tubeDiameter 20, pos (0,0). -/
def fanTestRack : RackConfig :=
  { id := "r2", name := "Fan A", type := RackType.Fan, x_tubes := 2, y_tubes := 2,
    pos_x := 0, pos_y := 0, tube_diameter := 20, rotation_angle := 0,
    tubes := List.replicate 4 (defaultTube "pink") }

/-- A one-tube Crate rack with a pink tube, for the fuse accumulation and
color-cycle scenarios. -/
def fuseTestRack : RackConfig :=
  { id := "r3", name := "Crate B", type := RackType.Crate, x_tubes := 1, y_tubes := 1,
    pos_x := 0, pos_y := 0, tube_diameter := 20, rotation_angle := 0,
    tubes := [defaultTube "pink"] }

/-- A rack whose configured tube diameter 4 is below the minimum click size. -/
def smallTubeRack : RackConfig :=
  { id := "r4", name := "Crate C", type := RackType.Crate, x_tubes := 1, y_tubes := 1,
    pos_x := 0, pos_y := 0, tube_diameter := 4, rotation_angle := 0,
    tubes := [defaultTube "pink"] }

/-- An empty scene. -/
def emptyScene : SceneState :=
  { racks := [], flow_lines := [], tube_connections := [], selected_rack_ids := [],
    selected_flow_line_id := none, canvas_view := { zoom := 1, pan_x := 0, pan_y := 0 } }

/-- A scene holding the one-tube rack, with that rack selected. -/
def exampleScene : SceneState :=
  { racks := [fuseTestRack], flow_lines := [], tube_connections := [],
    selected_rack_ids := ["r3"], selected_flow_line_id := none,
    canvas_view := { zoom := 1, pan_x := 0, pan_y := 0 } }

/-- An application state about to receive a shift-click color cycle. -/
def exampleApp : AppState :=
  { scene := exampleScene, undo_stack := [], redo_stack := [] }

/-- An application state with a non-empty undo stack. -/
def undoApp : AppState :=
  { scene := exampleScene, undo_stack := [emptyScene], redo_stack := [] }

/-! Helper lemmas. -/

/-- Flattening the kernel's doubly nested loop: enumerating an m-by-n grid
with the outer index first equals enumerating the flat indices 0..m*n-1 and
splitting each as (i / n, i % n). -/
theorem range_flatMap_eq_map {α : Type} (n : Nat) (g : Nat → Nat → α) :
    ∀ m : Nat, (List.range m).flatMap (fun a => (List.range n).map (g a)) =
      (List.range (m * n)).map (fun i => g (i / n) (i % n))
  | 0 => by simp
  | m + 1 => by
    rw [List.range_succ, List.flatMap_append, range_flatMap_eq_map n g m,
      Nat.succ_mul, List.range_add, List.map_append, List.map_map,
      List.flatMap_cons, List.flatMap_nil, List.append_nil]
    congr 1
    apply List.map_congr_left
    intro b hb
    have hbn : b < n := List.mem_range.mp hb
    have hn : 0 < n := Nat.lt_of_le_of_lt (Nat.zero_le b) hbn
    have h1 : (m * n + b) / n = m := by
      rw [Nat.add_comm, Nat.mul_comm, Nat.add_mul_div_left _ _ hn,
        Nat.div_eq_of_lt hbn, Nat.zero_add]
    have h2 : (m * n + b) % n = b := by
      rw [Nat.add_comm, Nat.mul_comm, Nat.add_mul_mod_self_left, Nat.mod_eq_of_lt hbn]
    simp [Function.comp, h1, h2]

/-- `find?` only depends on the predicate's values on the list. -/
theorem find?_congr_mem {α : Type} (p q : α → Bool) :
    ∀ l : List α, (∀ x ∈ l, p x = q x) → l.find? p = l.find? q
  | [], _ => rfl
  | a :: l, h => by
    have ha : p a = q a := h a (List.mem_cons_self a l)
    cases hq : q a with
    | true =>
      rw [List.find?_cons_of_pos _ (by rw [ha, hq]), List.find?_cons_of_pos _ hq]
    | false =>
      rw [List.find?_cons_of_neg _ (by simp [ha, hq]), List.find?_cons_of_neg _ (by simp [hq])]
      exact find?_congr_mem p q l (fun x hx => h x (List.mem_cons_of_mem a hx))

/-- Evaluating the tube-loop fold at one color counts the tubes of that
color. -/
theorem foldl_add_tube_fuse (per : ℚ) (c : String) :
    ∀ (tubes : List Tube) (m : String → ℚ),
      (tubes.foldl (add_tube_fuse per) m) c
        = m c + ((tubes.countP (fun t => t.color == c)) : ℚ) * per
  | [], m => by simp
  | t :: ts, m => by
    rw [List.foldl_cons, foldl_add_tube_fuse per c ts, List.countP_cons]
    by_cases h : t.color = c
    · have hb : (t.color == c) = true := by simp [h]
      simp only [add_tube_fuse, h, hb, eq_self_iff_true, if_true, beq_self_eq_true]
      push_cast
      ring
    · have hb : (t.color == c) = false := by simp [h]
      simp [add_tube_fuse, h, hb]

/-- Evaluating the rack-loop fold at one color sums the closed-form per-rack
contributions. -/
theorem foldl_add_rack_fuse (c : String) :
    ∀ (racks : List RackConfig) (m : String → ℚ),
      (racks.foldl add_rack_fuse m) c = m c + (racks.map (rack_fuse_contribution c)).sum
  | [], m => by simp
  | rc :: rs, m => by
    rw [List.foldl_cons, foldl_add_rack_fuse c rs, List.map_cons, List.sum_cons]
    simp only [add_rack_fuse, rack_fuse_contribution]
    split_ifs with h1 h2
    · ring
    · rw [foldl_add_tube_fuse]
      ring
    · ring

/-- Every kernel tube entry reports the effective diameter. -/
theorem tubePoints_dia (rc : RackConfig) :
    ∀ tp ∈ (get_rack_dimensions_and_points rc).tubePoints, tp.dia = effectiveTubeDiameter rc := by
  intro tp htp
  have htp' : tp ∈ rackTubePoints rc := htp
  unfold rackTubePoints at htp'
  cases hrt : rc.type with
  | Crate =>
    rw [hrt] at htp'
    simp only [List.mem_flatMap, List.mem_map] at htp'
    obtain ⟨r, _, c, _, rfl⟩ := htp'
    rfl
  | Fan =>
    rw [hrt] at htp'
    simp only [List.mem_flatMap, List.mem_map] at htp'
    obtain ⟨f, _, t, _, rfl⟩ := htp'
    rfl

/-! Claim theorems. -/

/-- C1 counterexample: for the Crate rack with cols=3, rows=2, tubeDiameter=20
at pos=(50,50) with rotation 0, the geometry kernel does NOT place tube 0 at
(65,65): the kernel translates by rackPos - localCenter, so pos is the rack's
center, not its top-left corner. -/
theorem C1_counterexample : tubeCenter crateTestRack 0 ≠ some (65, 65) := by
  norm_num [tubeCenter, get_rack_dimensions_and_points, rackTubePoints, crateTestRack,
    placePoint, crateCellCenter, unrotatedWidth, unrotatedHeight, tubeGroupWidth,
    tubeGroupHeight, rackSpacing, effectiveTubeDiameter, rotate_point, cosDeg, sinDeg,
    DEFAULT_TUBE_SPACING_RAT, RACK_OUTER_PADDING, List.range_succ, List.find?]

/-- C1 (amended): for the Crate rack with cols=3, rows=2, tubeDiameter=20 at
pos=(50,50) with rotation 0, outer padding 5 and spacing 4, the world-space
center of tube index 0 equals pos - (W/2, H/2) + (5+10, 5+10) = (26, 38) with
W = 78, H = 54, because world placement is pos - localCenter + localPoint. -/
theorem C1_amended : tubeCenter crateTestRack 0 = some (26, 38) := by
  norm_num [tubeCenter, get_rack_dimensions_and_points, rackTubePoints, crateTestRack,
    placePoint, crateCellCenter, unrotatedWidth, unrotatedHeight, tubeGroupWidth,
    tubeGroupHeight, rackSpacing, effectiveTubeDiameter, rotate_point, cosDeg, sinDeg,
    DEFAULT_TUBE_SPACING_RAT, RACK_OUTER_PADDING, List.range_succ, List.find?]

/-- C2 (amended): for every rack and every rotation angle, the kernel's tube
list has exactly cols*rows entries and entry i carries index i; Crate racks
are indexed row-major over the unrotated grid (column i % cols, row
i / cols), but Fan racks are indexed segment-major (segment i / rows, slot
i % rows); the decomposition of index i into an unrotated grid cell is the
same for every rotation angle, so indexing is invariant under rotation. -/
theorem C2_amended (rc : RackConfig) (a : Int) (i : Nat)
    (h : i < rc.x_tubes * rc.y_tubes) :
    (rackTubePoints (withRot rc a)).length = rc.x_tubes * rc.y_tubes ∧
    (rackTubePoints (withRot rc a))[i]? = some (expectedTubePoint (withRot rc a) i) := by
  have hx : (withRot rc a).x_tubes = rc.x_tubes := rfl
  have hy : (withRot rc a).y_tubes = rc.y_tubes := rfl
  have ht : (withRot rc a).type = rc.type := rfl
  cases hrt : rc.type with
  | Crate =>
    have hlist : rackTubePoints (withRot rc a) =
        (List.range (rc.y_tubes * rc.x_tubes)).map (fun i =>
          let p := placePoint (withRot rc a)
            (crateCellCenter (withRot rc a) (i % rc.x_tubes) (i / rc.x_tubes))
          TubePoint.mk ((i / rc.x_tubes) * rc.x_tubes + (i % rc.x_tubes)) p.1 p.2
            (effectiveTubeDiameter (withRot rc a))) := by
      unfold rackTubePoints
      rw [ht, hrt]
      rw [hx, hy]
      exact range_flatMap_eq_map rc.x_tubes _ rc.y_tubes
    constructor
    · rw [hlist, List.length_map, List.length_range, Nat.mul_comm]
    · have hi : i < rc.y_tubes * rc.x_tubes := by rw [Nat.mul_comm]; exact h
      rw [hlist, List.getElem?_map, List.getElem?_range hi]
      have hidx : (i / rc.x_tubes) * rc.x_tubes + (i % rc.x_tubes) = i := by
        rw [Nat.mul_comm]; exact Nat.div_add_mod i rc.x_tubes
      simp [expectedTubePoint, withRot, hrt, hidx]
  | Fan =>
    have hlist : rackTubePoints (withRot rc a) =
        (List.range (rc.x_tubes * rc.y_tubes)).map (fun i =>
          let p := placePoint (withRot rc a)
            (fanCellCenter (withRot rc a) (i / rc.y_tubes) (i % rc.y_tubes))
          TubePoint.mk ((i / rc.y_tubes) * rc.y_tubes + (i % rc.y_tubes)) p.1 p.2
            (effectiveTubeDiameter (withRot rc a))) := by
      unfold rackTubePoints
      rw [ht, hrt]
      rw [hx, hy]
      exact range_flatMap_eq_map rc.y_tubes _ rc.x_tubes
    constructor
    · rw [hlist, List.length_map, List.length_range]
    · rw [hlist, List.getElem?_map, List.getElem?_range h]
      have hidx : (i / rc.y_tubes) * rc.y_tubes + (i % rc.y_tubes) = i := by
        rw [Nat.mul_comm]; exact Nat.div_add_mod i rc.y_tubes
      simp [expectedTubePoint, withRot, hrt, hidx]

/-- C2 counterexample: for the Fan rack with cols=2, rows=2, tube index 1 is
NOT at the unrotated grid cell (column 1 % 2 = 1, row 1 / 2 = 0) that
row-major indexing would give: the kernel indexes Fan racks segment-major,
placing index 1 in segment 0, slot 1. -/
theorem C2_counterexample :
    tubeCenter fanTestRack 1 ≠
      some (placePoint fanTestRack
        (fanCellCenter fanTestRack (1 % fanTestRack.x_tubes) (1 / fanTestRack.x_tubes))) := by
  norm_num +decide [tubeCenter, get_rack_dimensions_and_points, rackTubePoints, fanTestRack,
    placePoint, fanCellCenter, unrotatedWidth, unrotatedHeight, tubeGroupWidth,
    tubeGroupHeight, rackSpacing, fanPad, fanSegWidth, fanGap, effectiveTubeDiameter,
    rotate_point, cosDeg, sinDeg, DEFAULT_TUBE_SPACING_RAT, DEFAULT_FAN_PADDING_RAT,
    DEFAULT_INTER_FAN_SPACING_RAT, RACK_OUTER_PADDING, List.range_succ, List.find?]

/-- Witness for C2_amended: the Fan test rack rotated to 90 degrees, index 3
(segment 1, slot 1). -/
theorem C2_amended_witness :
    3 < fanTestRack.x_tubes * fanTestRack.y_tubes ∧
    ((rackTubePoints (withRot fanTestRack 90)).length =
        fanTestRack.x_tubes * fanTestRack.y_tubes ∧
      (rackTubePoints (withRot fanTestRack 90))[3]? =
        some (expectedTubePoint (withRot fanTestRack 90) 3)) :=
  ⟨by norm_num [fanTestRack], C2_amended fanTestRack 90 3 (by norm_num [fanTestRack])⟩

set_option maxHeartbeats 1000000 in
/-- C8: for every rack with positive dimensions, a tube diameter above the
data model's minimum of 2, and a rotation in the application's cycle, the
rotated bounding box equals the unrotated dimensions at 0 and 180 degrees
and the swapped dimensions at 90 and 270 degrees. -/
theorem C8_bbox_swap (rc : RackConfig) (hx : 0 < rc.x_tubes) (hy : 0 < rc.y_tubes)
    (hd : 2 < rc.tube_diameter)
    (hrot : rc.rotation_angle = 0 ∨ rc.rotation_angle = 90 ∨ rc.rotation_angle = 180 ∨
      rc.rotation_angle = 270) :
    ((rc.rotation_angle = 0 ∨ rc.rotation_angle = 180) →
        (get_rack_dimensions_and_points rc).bbox_width = unrotatedWidth rc ∧
        (get_rack_dimensions_and_points rc).bbox_height = unrotatedHeight rc) ∧
    ((rc.rotation_angle = 90 ∨ rc.rotation_angle = 270) →
        (get_rack_dimensions_and_points rc).bbox_width = unrotatedHeight rc ∧
        (get_rack_dimensions_and_points rc).bbox_height = unrotatedWidth rc) := by
  have hd0 : (0 : ℚ) ≤ rc.tube_diameter := by linarith
  have hs : 0 ≤ rackSpacing rc := by
    unfold rackSpacing
    exact mul_nonneg (by norm_num [DEFAULT_TUBE_SPACING_RAT]) hd0
  have hfp : 0 ≤ fanPad rc := by
    unfold fanPad
    exact mul_nonneg (by norm_num [DEFAULT_FAN_PADDING_RAT]) hd0
  have hfw : 0 ≤ fanSegWidth rc := by unfold fanSegWidth; linarith
  have hfg : 0 ≤ fanGap rc := by
    unfold fanGap
    exact mul_nonneg (by norm_num [DEFAULT_INTER_FAN_SPACING_RAT]) hd0
  have hgw : 0 ≤ tubeGroupWidth rc := by
    unfold tubeGroupWidth
    rcases rc.type with _ | _
    · exact add_nonneg (mul_nonneg (Nat.cast_nonneg _) hd0) (mul_nonneg (Nat.cast_nonneg _) hs)
    · exact add_nonneg (mul_nonneg (Nat.cast_nonneg _) hfw) (mul_nonneg (Nat.cast_nonneg _) hfg)
  have hgh : 0 ≤ tubeGroupHeight rc := by
    unfold tubeGroupHeight
    rcases rc.type with _ | _
    · exact add_nonneg (mul_nonneg (Nat.cast_nonneg _) hd0) (mul_nonneg (Nat.cast_nonneg _) hs)
    · exact add_nonneg
        (add_nonneg (mul_nonneg (Nat.cast_nonneg _) hd0) (mul_nonneg (Nat.cast_nonneg _) hs))
        (by linarith)
  have hW : 0 ≤ unrotatedWidth rc := by
    unfold unrotatedWidth
    norm_num [RACK_OUTER_PADDING]
    linarith
  have hH : 0 ≤ unrotatedHeight rc := by
    unfold unrotatedHeight
    norm_num [RACK_OUTER_PADDING]
    linarith
  rcases hrot with h | h | h | h
  · have hcos : cosDeg rc.rotation_angle = 1 := by rw [h]; rfl
    have hsin : sinDeg rc.rotation_angle = 0 := by rw [h]; rfl
    refine ⟨fun _ => ?_, fun hc => ?_⟩
    · constructor <;>
      · simp only [get_rack_dimensions_and_points, rackOutline, placePoint, rotate_point,
          hcos, hsin, List.map_cons, List.map_nil, listMax, listMin,
          List.foldl_cons, List.foldl_nil]
        set W := unrotatedWidth rc
        set H := unrotatedHeight rc
        ring_nf
        simp only [max_def, min_def]
        split_ifs <;> linarith
    · rw [h] at hc
      simp at hc
  · have hcos : cosDeg rc.rotation_angle = 0 := by rw [h]; rfl
    have hsin : sinDeg rc.rotation_angle = 1 := by rw [h]; rfl
    refine ⟨fun hc => ?_, fun _ => ?_⟩
    · rw [h] at hc
      simp at hc
    · constructor <;>
      · simp only [get_rack_dimensions_and_points, rackOutline, placePoint, rotate_point,
          hcos, hsin, List.map_cons, List.map_nil, listMax, listMin,
          List.foldl_cons, List.foldl_nil]
        set W := unrotatedWidth rc
        set H := unrotatedHeight rc
        ring_nf
        simp only [max_def, min_def]
        split_ifs <;> linarith
  · have hcos : cosDeg rc.rotation_angle = -1 := by rw [h]; rfl
    have hsin : sinDeg rc.rotation_angle = 0 := by rw [h]; rfl
    refine ⟨fun _ => ?_, fun hc => ?_⟩
    · constructor <;>
      · simp only [get_rack_dimensions_and_points, rackOutline, placePoint, rotate_point,
          hcos, hsin, List.map_cons, List.map_nil, listMax, listMin,
          List.foldl_cons, List.foldl_nil]
        set W := unrotatedWidth rc
        set H := unrotatedHeight rc
        ring_nf
        simp only [max_def, min_def]
        split_ifs <;> linarith
    · rw [h] at hc
      simp at hc
  · have hcos : cosDeg rc.rotation_angle = 0 := by rw [h]; rfl
    have hsin : sinDeg rc.rotation_angle = -1 := by rw [h]; rfl
    refine ⟨fun hc => ?_, fun _ => ?_⟩
    · rw [h] at hc
      simp at hc
    · constructor <;>
      · simp only [get_rack_dimensions_and_points, rackOutline, placePoint, rotate_point,
          hcos, hsin, List.map_cons, List.map_nil, listMax, listMin,
          List.foldl_cons, List.foldl_nil]
        set W := unrotatedWidth rc
        set H := unrotatedHeight rc
        ring_nf
        simp only [max_def, min_def]
        split_ifs <;> linarith

/-- Witness for C8_bbox_swap: the C1 crate rack rotated to 90 degrees. -/
theorem C8_bbox_swap_witness :
    0 < (withRot crateTestRack 90).x_tubes ∧ 0 < (withRot crateTestRack 90).y_tubes ∧
    2 < (withRot crateTestRack 90).tube_diameter ∧
    ((withRot crateTestRack 90).rotation_angle = 0 ∨
      (withRot crateTestRack 90).rotation_angle = 90 ∨
      (withRot crateTestRack 90).rotation_angle = 180 ∨
      (withRot crateTestRack 90).rotation_angle = 270) ∧
    ((((withRot crateTestRack 90).rotation_angle = 0 ∨
          (withRot crateTestRack 90).rotation_angle = 180) →
        (get_rack_dimensions_and_points (withRot crateTestRack 90)).bbox_width =
            unrotatedWidth (withRot crateTestRack 90) ∧
          (get_rack_dimensions_and_points (withRot crateTestRack 90)).bbox_height =
            unrotatedHeight (withRot crateTestRack 90)) ∧
      (((withRot crateTestRack 90).rotation_angle = 90 ∨
          (withRot crateTestRack 90).rotation_angle = 270) →
        (get_rack_dimensions_and_points (withRot crateTestRack 90)).bbox_width =
            unrotatedHeight (withRot crateTestRack 90) ∧
          (get_rack_dimensions_and_points (withRot crateTestRack 90)).bbox_height =
            unrotatedWidth (withRot crateTestRack 90))) :=
  ⟨by norm_num [withRot, crateTestRack], by norm_num [withRot, crateTestRack],
   by norm_num [withRot, crateTestRack], Or.inr (Or.inl rfl),
   C8_bbox_swap (withRot crateTestRack 90) (by norm_num [withRot, crateTestRack])
     (by norm_num [withRot, crateTestRack]) (by norm_num [withRot, crateTestRack])
     (Or.inr (Or.inl rfl))⟩

/-- C6: for every world point and every zoom in [MIN_ZOOM, MAX_ZOOM] with
zoom nonzero, `canvas_to_world` is the exact algebraic inverse of
`world_to_canvas`: the round trip is the identity. -/
theorem C6_round_trip (v : ViewState) (p : ℚ × ℚ)
    (h1 : MIN_ZOOM ≤ v.zoom_level) (h2 : v.zoom_level ≤ MAX_ZOOM)
    (h3 : v.zoom_level ≠ 0) :
    canvas_to_world v (world_to_canvas v p) = p := by
  obtain ⟨px, py⟩ := p
  simp only [canvas_to_world, world_to_canvas, Prod.mk.injEq]
  constructor <;> field_simp

/-- Witness for C6_round_trip at zoom 2, pan (7, -3), p = (11, 13). -/
theorem C6_round_trip_witness :
    MIN_ZOOM ≤ (2 : ℚ) ∧ (2 : ℚ) ≤ MAX_ZOOM ∧ (2 : ℚ) ≠ 0 ∧
    canvas_to_world ⟨2, 7, -3⟩ (world_to_canvas ⟨2, 7, -3⟩ (11, 13)) = (11, 13) :=
  ⟨by norm_num [MIN_ZOOM], by norm_num [MAX_ZOOM], by norm_num,
   C6_round_trip ⟨2, 7, -3⟩ (11, 13) (by norm_num [MIN_ZOOM]) (by norm_num [MAX_ZOOM])
     (by norm_num)⟩

/-- C7: a zoom step about the cursor keeps the world point under the cursor
fixed (the pan adjustment `pan += worldBefore - worldAfter` cancels the zoom
change exactly), and the resulting zoom always lies in [MIN_ZOOM, MAX_ZOOM]. -/
theorem C7_zoom_about_cursor (v : ViewState) (zoomIn : Bool) (ex ey : ℚ)
    (h1 : MIN_ZOOM ≤ v.zoom_level) (h2 : v.zoom_level ≤ MAX_ZOOM) :
    canvas_to_world (on_mouse_wheel v zoomIn ex ey) (ex, ey) = canvas_to_world v (ex, ey) ∧
    MIN_ZOOM ≤ (on_mouse_wheel v zoomIn ex ey).zoom_level ∧
    (on_mouse_wheel v zoomIn ex ey).zoom_level ≤ MAX_ZOOM := by
  refine ⟨?_, ?_, ?_⟩
  · simp only [on_mouse_wheel, canvas_to_world, Prod.mk.injEq]
    constructor <;> ring
  · simp only [on_mouse_wheel]
    exact le_max_left _ _
  · simp only [on_mouse_wheel, clampZoom]
    exact max_le (by norm_num [MIN_ZOOM, MAX_ZOOM]) (min_le_left _ _)

/-- Witness for C7_zoom_about_cursor: zoom-in step at zoom 1, pan (0,0),
cursor (100, 40). -/
theorem C7_zoom_about_cursor_witness :
    MIN_ZOOM ≤ (1 : ℚ) ∧ (1 : ℚ) ≤ MAX_ZOOM ∧
    (canvas_to_world (on_mouse_wheel ⟨1, 0, 0⟩ true 100 40) (100, 40) =
        canvas_to_world ⟨1, 0, 0⟩ (100, 40) ∧
      MIN_ZOOM ≤ (on_mouse_wheel ⟨1, 0, 0⟩ true 100 40).zoom_level ∧
      (on_mouse_wheel ⟨1, 0, 0⟩ true 100 40).zoom_level ≤ MAX_ZOOM) :=
  ⟨by norm_num [MIN_ZOOM], by norm_num [MAX_ZOOM],
   C7_zoom_about_cursor ⟨1, 0, 0⟩ true 100 40 (by norm_num [MIN_ZOOM])
     (by norm_num [MAX_ZOOM])⟩

/-- C5: for any state with a non-empty undo stack, undo followed by redo
restores exactly the live state (racks, flow lines, tube connections,
selection, and view zoom/pan) present immediately before the undo. -/
theorem C5_undo_redo (app : AppState) (h : app.undo_stack ≠ []) :
    (redo_action (undo_action app)).scene = app.scene := by
  cases hs : app.undo_stack with
  | nil => exact absurd hs h
  | cons top rest => simp [undo_action, redo_action, hs]

/-- Witness for C5_undo_redo on a state with one undo entry. -/
theorem C5_undo_redo_witness :
    undoApp.undo_stack ≠ [] ∧ (redo_action (undo_action undoApp)).scene = undoApp.scene :=
  ⟨by decide, C5_undo_redo undoApp (by decide)⟩

/-- C9: the confirmed delete removes exactly the tube connections whose
source or target rack id is selected, keeps every other connection, and
removes exactly the selected racks. -/
theorem C9_delete_cascade (s : SceneState) :
    (∀ c : TubeConnection,
        c ∈ (delete_selected_racks s).tube_connections ↔
          c ∈ s.tube_connections ∧
            c.source_rack_id ∉ s.selected_rack_ids ∧
            c.target_rack_id ∉ s.selected_rack_ids) ∧
    (∀ r : RackConfig,
        r ∈ (delete_selected_racks s).racks ↔ r ∈ s.racks ∧ r.id ∉ s.selected_rack_ids) := by
  constructor
  · intro c
    simp [delete_selected_racks, List.mem_filter, and_assoc]
  · intro r
    simp [delete_selected_racks, List.mem_filter]

/-- C3 exhibits a record-after-mutate bug: the shift-click color cycle on
tube 0 of the selected one-tube rack first recolors the tube and only then
records the history snapshot, so the top undo entry equals the POST-mutation
scene (which differs from the pre-mutation scene), and an undo immediately
after the gesture leaves the recolored scene in place instead of reverting
it. -/
theorem C3_record_after_mutate :
    (shift_click_recolor exampleApp 0).undo_stack.head? =
        some (shift_click_recolor exampleApp 0).scene ∧
    (shift_click_recolor exampleApp 0).scene ≠ exampleApp.scene ∧
    (undo_action (shift_click_recolor exampleApp 0)).scene =
      (shift_click_recolor exampleApp 0).scene := by decide

/-- C4 counterexample: for a one-tube Crate rack with a pink tube, the pink
running total is NOT the closed-form rack total divided by the tube count:
the code first scales the total by FUSE_LENGTH_SCALE_FACTOR = 0.9
(63/25 accumulated instead of 70/25). -/
theorem C4_counterexample :
    fuse_lengths_by_color [fuseTestRack] "pink" ≠
      rack_total_fuse_inches fuseTestRack / (rackNumTubes fuseTestRack : ℚ) := by
  norm_num [fuse_lengths_by_color, add_rack_fuse, add_tube_fuse, rack_total_fuse_inches,
    rackNumTubes, fuseTestRack, defaultTube, DEFAULT_CRATE_FUSE_INCHES,
    FUSE_LENGTH_SCALE_FACTOR, List.foldl]

/-- C4 (amended): each rack's closed-form fuse total, scaled by
FUSE_LENGTH_SCALE_FACTOR = 0.9, is divided evenly by the rack's tube count
and apportioned into the per-color running totals: each color's total is the
sum over racks of (tubes of that color) x (0.9 x total / tubeCount). -/
theorem C4_amended (racks : List RackConfig) (c : String) :
    fuse_lengths_by_color racks c = (racks.map (rack_fuse_contribution c)).sum := by
  unfold fuse_lengths_by_color
  rw [foldl_add_rack_fuse]
  simp

/-- C10: every tube entry reported by the geometry kernel carries the
effective diameter max(tubeDiameter, 10) - strictly larger than the
configured diameter whenever that is below 10 - and the hit test used for
tube click-cycling and connection therefore accepts exactly the points
within radius max(tubeDiameter, 10) / 2 of a tube center. -/
theorem C10_effective_diameter (rc : RackConfig) (wx wy : ℚ) :
    (∀ tp ∈ (get_rack_dimensions_and_points rc).tubePoints,
        tp.dia = max rc.tube_diameter 10 ∧
          (rc.tube_diameter < 10 → rc.tube_diameter < tp.dia)) ∧
    tube_hit_test rc wx wy =
      ((get_rack_dimensions_and_points rc).tubePoints.find? (fun tp =>
        decide ((wx - tp.cx) ^ 2 + (wy - tp.cy) ^ 2 ≤
          (max rc.tube_diameter 10 / 2) ^ 2))).map TubePoint.idx := by
  constructor
  · intro tp htp
    have hd := tubePoints_dia rc tp htp
    rw [effectiveTubeDiameter] at hd
    exact ⟨hd, fun hlt => by rw [hd]; exact lt_of_lt_of_le hlt (le_max_right _ _)⟩
  · unfold tube_hit_test
    congr 1
    apply find?_congr_mem
    intro tp htp
    have hd := tubePoints_dia rc tp htp
    rw [effectiveTubeDiameter] at hd
    rw [hd]

/-- Witness for C10_effective_diameter on the diameter-4 rack at the world
origin. -/
theorem C10_effective_diameter_witness :
    (∀ tp ∈ (get_rack_dimensions_and_points smallTubeRack).tubePoints,
        tp.dia = max smallTubeRack.tube_diameter 10 ∧
          (smallTubeRack.tube_diameter < 10 → smallTubeRack.tube_diameter < tp.dia)) ∧
    tube_hit_test smallTubeRack 0 0 =
      ((get_rack_dimensions_and_points smallTubeRack).tubePoints.find? (fun tp =>
        decide ((0 - tp.cx) ^ 2 + (0 - tp.cy) ^ 2 ≤
          (max smallTubeRack.tube_diameter 10 / 2) ^ 2))).map TubePoint.idx :=
  C10_effective_diameter smallTubeRack 0 0

end Fireworks
